import Mathlib

/-!
Verification development for the scan-supervisor application.

The embedding below translates the supervising process
(src/electron-main.js) and the UI controller (src/renderer/renderer.js)
into executable Lean definitions.  The file src/unnamed/part_000 is a
variant of the same renderer controller with identical control flow in
the places the claims touch; differences are noted where relevant.

Modelling conventions:
- JSON values are modelled by `JValue`; numeric literals are modelled as
  integers, which covers every number appearing in the wire protocol.
- The mutable module state of electron-main.js (the `pythonProcess`
  handle, the `mainWindow` handle, pending grace timers) is gathered in
  `MainState`.  Each JS event handler or function becomes a pure function
  `MainState -> MainState × List MainEff`, where `MainEff` records the
  externally visible actions (spawning, stdin writes, UI sends, kills,
  timer arming) in order.
- The renderer DOM state touched by renderer.js becomes `RendererState`;
  DOM-only visuals with no control-flow role (shake animation, scroll
  position, timestamps) are not tracked.
-/

/-- JSON values as produced by JSON.parse, with numbers restricted to
integers (the wire protocol of the application only uses integers). -/
inductive JValue where
  | null
  | bool (b : Bool)
  | num (n : Int)
  | str (s : String)
  | arr (xs : List JValue)
  | obj (fields : List (String × JValue))

/-- Drop leading JSON whitespace. -/
def skipWs (cs : List Char) : List Char :=
  cs.dropWhile fun c => c == ' ' || c == '\t' || c == '\n' || c == '\r'

/-- Translation of a single-character JSON string escape. -/
def escChar (c : Char) : Option Char :=
  if c == 'n' then some '\n'
  else if c == 't' then some '\t'
  else if c == 'r' then some '\r'
  else if c == 'b' then some (Char.ofNat 8)
  else if c == 'f' then some (Char.ofNat 12)
  else if c == '"' || c == '/' || c == '\\' then some c
  else none

/-- Parse the body of a JSON string after the opening quote; returns the
decoded characters and the remaining input after the closing quote. -/
def parseStrChars : List Char → Option (List Char × List Char)
  | [] => none
  | '"' :: rest => some ([], rest)
  | '\\' :: [] => none
  | '\\' :: e :: rest => do
      let c ← escChar e
      let (s, r) ← parseStrChars rest
      some (c :: s, r)
  | c :: rest => do
      let (s, r) ← parseStrChars rest
      some (c :: s, r)

/-- Numeric value of a digit run. -/
def digitsVal (ds : List Char) : Nat :=
  ds.foldl (fun a c => a * 10 + (c.toNat - 48)) 0

/-- Parse a nonempty run of digits as a natural number, returning the
value and the remaining input. -/
def parseNumDigits (cs : List Char) : Option (Nat × List Char) :=
  match cs.takeWhile Char.isDigit with
  | [] => none
  | ds => some (digitsVal ds, cs.dropWhile Char.isDigit)

mutual

/-- Recursive-descent parser for one JSON value (fuel-bounded). -/
def parseValue : Nat → List Char → Option (JValue × List Char)
  | 0, _ => none
  | fuel + 1, cs =>
    match skipWs cs with
    | 'n' :: 'u' :: 'l' :: 'l' :: rest => some (JValue.null, rest)
    | 't' :: 'r' :: 'u' :: 'e' :: rest => some (JValue.bool true, rest)
    | 'f' :: 'a' :: 'l' :: 's' :: 'e' :: rest => some (JValue.bool false, rest)
    | '"' :: rest => do
        let (s, r) ← parseStrChars rest
        some (JValue.str (String.mk s), r)
    | '{' :: rest =>
        (match skipWs rest with
         | '}' :: r2 => some (JValue.obj [], r2)
         | _ => do
             let (fs, r2) ← parseMembers fuel rest
             some (JValue.obj fs, r2))
    | '[' :: rest =>
        (match skipWs rest with
         | ']' :: r2 => some (JValue.arr [], r2)
         | _ => do
             let (xs, r2) ← parseItems fuel rest
             some (JValue.arr xs, r2))
    | '-' :: rest => do
        let (n, r) ← parseNumDigits rest
        some (JValue.num (-(n : Int)), r)
    | c :: rest =>
        if c.isDigit then do
          let (n, r) ← parseNumDigits (c :: rest)
          some (JValue.num (n : Int), r)
        else none
    | [] => none

/-- Parse the members of a JSON object after the opening brace. -/
def parseMembers : Nat → List Char → Option (List (String × JValue) × List Char)
  | 0, _ => none
  | fuel + 1, cs =>
    match skipWs cs with
    | '"' :: rest => do
        let (k, r1) ← parseStrChars rest
        match skipWs r1 with
        | ':' :: r2 => do
            let (v, r3) ← parseValue fuel r2
            (match skipWs r3 with
             | ',' :: r4 => do
                 let (fs, r5) ← parseMembers fuel r4
                 some ((String.mk k, v) :: fs, r5)
             | '}' :: r4 => some ([(String.mk k, v)], r4)
             | _ => none)
        | _ => none
    | _ => none

/-- Parse the items of a JSON array after the opening bracket. -/
def parseItems : Nat → List Char → Option (List JValue × List Char)
  | 0, _ => none
  | fuel + 1, cs => do
      let (v, r1) ← parseValue fuel cs
      match skipWs r1 with
      | ',' :: r2 => do
          let (xs, r3) ← parseItems fuel r2
          some (v :: xs, r3)
      | ']' :: r2 => some ([v], r2)
      | _ => none

end

/-- Model of JSON.parse restricted to one complete value per input,
tolerating surrounding whitespace; yields none exactly when JSON.parse
would throw.  Used by the stdout line handler of electron-main.js. -/
def jsonParse (s : String) : Option JValue :=
  let cs := skipWs s.toList
  match parseValue (2 * cs.length + 4) cs with
  | some (v, rest) => if skipWs rest = [] then some v else none
  | none => none

/-- Drop leading whitespace characters. -/
def dropLeadingWs : List Char → List Char
  | [] => []
  | c :: cs => if c.isWhitespace then dropLeadingWs cs else c :: cs

/-- Model of the JS String trim method: remove whitespace from both ends
of the string. -/
def strTrim (s : String) : String :=
  String.mk (List.reverse (dropLeadingWs (List.reverse (dropLeadingWs s.toList))))

/-- The worker process handle as far as the supervisor observes it:
its identity and whether its stdin stream is currently writable. -/
structure WorkerProc where
  pid : Nat
  stdinWritable : Bool
deriving Repr, DecidableEq

/-- Externally visible actions of the main process, in program order. -/
inductive MainEff where
  | spawned (pid : Nat)
  | wrote (pid : Nat) (cmd : JValue)
  | uiEvent (payload : JValue)
  | killed (pid : Nat)
  | timerSet

/-- Mutable module state of electron-main.js: the global `pythonProcess`
reference, whether `mainWindow` exists and is not destroyed, a counter
for fresh process identities, and the number of pending grace timers
armed by killPython. -/
structure MainState where
  pythonProcess : Option WorkerProc
  windowAlive : Bool
  nextPid : Nat
  graceTimers : Nat

/-- Command object sent by the start-scan handler
(electron-main.js line 121). -/
def scanJson (source output : String) (threshold : Int) : JValue :=
  JValue.obj [("cmd", JValue.str "scan"), ("source", JValue.str source),
              ("output", JValue.str output), ("threshold", JValue.num threshold)]

/-- Command object sent by the cancel-scan handler
(electron-main.js line 126). -/
def cancelJson : JValue := JValue.obj [("cmd", JValue.str "cancel")]

/-- Command object sent by killPython (electron-main.js line 97). -/
def quitJson : JValue := JValue.obj [("cmd", JValue.str "quit")]

/-- Payload wrapped around stderr text
(electron-main.js lines 67 to 70). -/
def errorJson (message : String) : JValue :=
  JValue.obj [("event", JValue.str "error"), ("message", JValue.str message)]

/-- Synthetic exit payload (electron-main.js lines 77 to 80). -/
def processExitJson (code : Int) : JValue :=
  JValue.obj [("event", JValue.str "process-exit"), ("code", JValue.num code)]

/-- spawnPython (electron-main.js lines 40 to 49): no-op when a worker is
already live, otherwise spawn a fresh process with piped streams.  Node
spawn returns a handle synchronously with a writable stdin, even when the
executable later fails to start, so the fresh handle is writable. -/
def spawnPython (s : MainState) : MainState × List MainEff :=
  match s.pythonProcess with
  | some _ => (s, [])
  | none =>
      ({ s with pythonProcess := some { pid := s.nextPid, stdinWritable := true },
                nextPid := s.nextPid + 1 },
       [MainEff.spawned s.nextPid])

/-- sendToPython (electron-main.js lines 85 to 92): spawn on demand, then
write one JSON line to stdin only when the handle exists and its stdin is
writable; otherwise do nothing at all. -/
def sendToPython (s : MainState) (cmd : JValue) : MainState × List MainEff :=
  let (s1, e1) :=
    match s.pythonProcess with
    | none => spawnPython s
    | some _ => (s, [])
  match s1.pythonProcess with
  | some p => if p.stdinWritable then (s1, e1 ++ [MainEff.wrote p.pid cmd]) else (s1, e1)
  | none => (s1, e1)

/-- killPython (electron-main.js lines 94 to 108): when a worker is live,
write the quit command inside try/catch (the write happens only when
stdin is writable, and a failed write is swallowed) and arm a 1000 ms
grace timer; when no worker is live, do nothing. -/
def killPython (s : MainState) : MainState × List MainEff :=
  match s.pythonProcess with
  | none => (s, [])
  | some p =>
      ({ s with graceTimers := s.graceTimers + 1 },
       (if p.stdinWritable then [MainEff.wrote p.pid quitJson] else []) ++ [MainEff.timerSet])

/-- The grace-timer callback of killPython (electron-main.js lines 101 to
106), fired 1000 ms after being armed: whatever worker reference is live
at that moment is killed and cleared; if none is live the callback does
nothing.  The pending-timer count is decremented because the timer has
fired. -/
def graceTimerFire (s : MainState) : MainState × List MainEff :=
  let s0 := { s with graceTimers := s.graceTimers - 1 }
  match s0.pythonProcess with
  | some p => ({ s0 with pythonProcess := none }, [MainEff.killed p.pid])
  | none => (s0, [])

/-- The stdout line handler (electron-main.js lines 53 to 62): parse the
line as JSON inside try/catch; on success forward the parsed value to the
window when it exists and is not destroyed; on parse failure do nothing
(the catch block ignores the error).  The state is never modified. -/
def onStdoutLine (s : MainState) (line : String) : MainState × List MainEff :=
  (s,
   match jsonParse line with
   | some msg => if s.windowAlive then [MainEff.uiEvent msg] else []
   | none => [])

/-- The stderr data handler (electron-main.js lines 64 to 72): trim the
chunk; forward it wrapped as an error event only when it is nonempty and
the window is live.  The state is never modified. -/
def onStderrData (s : MainState) (data : String) : MainState × List MainEff :=
  let errMsg := strTrim data
  (s, if errMsg != "" && s.windowAlive then [MainEff.uiEvent (errorJson errMsg)] else [])

/-- The close handler (electron-main.js lines 74 to 82): clear the global
worker reference unconditionally, then send the synthetic process-exit
event when the window is live. -/
def onProcessClose (s : MainState) (code : Int) : MainState × List MainEff :=
  ({ s with pythonProcess := none },
   if s.windowAlive then [MainEff.uiEvent (processExitJson code)] else [])

/-- The start-scan IPC handler (electron-main.js lines 119 to 123):
spawnPython, then sendToPython the scan command, then return true.
There is no rejection path and no state check. -/
def startScanHandler (s : MainState) (source output : String) (threshold : Int) :
    MainState × List MainEff × Bool :=
  let (s1, e1) := spawnPython s
  let (s2, e2) := sendToPython s1 (scanJson source output threshold)
  (s2, e1 ++ e2, true)

/-- The cancel-scan IPC handler (electron-main.js lines 125 to 128):
sendToPython the cancel command, then return true. -/
def cancelScanHandler (s : MainState) : MainState × List MainEff × Bool :=
  let (s1, e1) := sendToPython s cancelJson
  (s1, e1, true)

/-- Successive lines arriving on the worker stdout reader, processed in
order by the line handler, accumulating the forwarded effects. -/
def processStdoutLines : MainState → List String → MainState × List MainEff
  | s, [] => (s, [])
  | s, l :: rest =>
      let (s1, e1) := onStdoutLine s l
      let (s2, e2) := processStdoutLines s1 rest
      (s2, e1 ++ e2)

/-- Events received by the renderer through the backend-event channel,
as discriminated by the switch on data.event in renderer.js lines 83 to
114.  The `other` constructor covers any discriminator outside the
switch cases, for which the switch falls through without effect. -/
inductive BEvent where
  | status (message : String)
  | log (message : String)
  | progress (current total : Int)
  | complete (summary : String) (errors : Int)
  | cancelled
  | error (message : String)
  | processExit (code : Int)
  | other (tag : String)
deriving Repr, DecidableEq

/-- Calls the renderer makes into the main process through window.api. -/
inductive ApiCall where
  | startScan (source output : String) (threshold : Int)
  | cancelScan
deriving Repr, DecidableEq

/-- The renderer DOM and script state touched by renderer.js.  The
progress bar width is kept as the percentage number written into
style.width, none meaning the style was never set; log entries carry
the message and the optional classification class. -/
structure RendererState where
  isScanning : Bool
  btnStartDisabled : Bool
  btnCancelDisabled : Bool
  inputsDisabled : Bool
  statusText : String
  progressBarWidthPct : Option ℚ
  progressCountText : String
  progressActive : Bool
  progressScanning : Bool
  summaryHidden : Bool
  summaryHasErrors : Bool
  summaryText : String
  logEntries : List (String × Option String)
  logStarted : Bool
deriving Repr, DecidableEq

/-- True when needle begins hay. -/
def beginsWith : List Char → List Char → Bool
  | [], _ => true
  | _ :: _, [] => false
  | a :: as, b :: bs => a == b && beginsWith as bs

/-- True when the needle occurs somewhere inside the haystack. -/
def hasSubAux : List Char → List Char → Bool
  | needle, [] => beginsWith needle []
  | needle, c :: rest => beginsWith needle (c :: rest) || hasSubAux needle rest

/-- Model of the JS String.includes used by the log classifier. -/
def containsStr (hay needle : String) : Bool :=
  hasSubAux needle.toList hay.toList

/-- The automatic log classification of addLog
(renderer.js lines 146 to 151). -/
def autoClassify (msg : String) : Option String :=
  if containsStr msg "Original (kept)" then some "accent"
  else if containsStr msg "Done!" then some "success"
  else if containsStr msg "Failed" || containsStr msg "error" || containsStr msg "Error" then
    some "error"
  else none

/-- addLog (renderer.js lines 137 to 158): clear the placeholder on the
first entry, classify untyped messages, append the entry.  Timestamps
are wall clock only and are not tracked. -/
def addLog (s : RendererState) (msg : String) (ty : Option String) : RendererState :=
  let entries := if s.logStarted then s.logEntries else []
  let ty2 := match ty with
    | some t => some t
    | none => autoClassify msg
  { s with logEntries := entries ++ [(msg, ty2)], logStarted := true }

/-- clearLog (renderer.js lines 160 to 163): replace the log content by
the placeholder and reset the first-entry flag. -/
def clearLog (s : RendererState) : RendererState :=
  { s with logEntries := [], logStarted := false }

/-- setScanning (renderer.js lines 117 to 128): flip the scanning flag,
disable or enable the controls, and toggle the progress-section classes;
the active class condition compares the bar width against the 0 percent
string. -/
def setScanning (s : RendererState) (v : Bool) : RendererState :=
  { s with isScanning := v,
           btnStartDisabled := v,
           btnCancelDisabled := !v,
           inputsDisabled := v,
           progressActive := v || !(s.progressBarWidthPct == some 0),
           progressScanning := v }

/-- setProgress (renderer.js lines 130 to 135): with a positive total the
bar width becomes current divided by total times one hundred, with no
clamping; otherwise the width becomes zero and the counter text becomes
empty.  The division is modelled exactly over the rationals. -/
def setProgress (s : RendererState) (cur total : Int) : RendererState :=
  let pct : ℚ := if total > 0 then ((cur : ℚ) / (total : ℚ)) * 100 else 0
  { s with progressBarWidthPct := some pct,
           progressCountText :=
             if total > 0 then toString cur ++ " / " ++ toString total else "",
           progressActive := true }

/-- The backend-event subscription handler (renderer.js lines 83 to 114).
The variant in src/unnamed/part_000 lines 93 to 132 has the same control
flow; it differs only in the status string shown on process exit and in
css class names. -/
def handleBackendEvent (s : RendererState) (e : BEvent) : RendererState :=
  match e with
  | BEvent.status m => { s with statusText := m }
  | BEvent.log m => addLog s m none
  | BEvent.progress c t => setProgress s c t
  | BEvent.complete summary errors =>
      let s1 := setScanning s false
      let s2 := { s1 with summaryHidden := false, summaryHasErrors := decide (0 < errors) }
      { s2 with summaryText := summary }
  | BEvent.cancelled => setScanning s false
  | BEvent.error m => addLog s m (some "error")
  | BEvent.processExit _ =>
      if s.isScanning then
        let s1 := setScanning s false
        let s2 := addLog s1 "Backend process exited unexpectedly." (some "error")
        { s2 with statusText := "Error" }
      else s
  | BEvent.other _ => s

/-- The start-button click handler (renderer.js lines 51 to 71): trim the
two paths, bail out on an empty path (shake is visual only) or on equal
paths (log an error), otherwise flip into the scanning UI state and call
startScan with the parsed threshold.  The browser only delivers the
click while the button is not disabled. -/
def btnStartClick (s : RendererState) (sourceRaw outputRaw : String) (sliderVal : Int) :
    RendererState × List ApiCall :=
  let source := strTrim sourceRaw
  let output := strTrim outputRaw
  if source = "" then (s, [])
  else if output = "" then (s, [])
  else if source = output then
    (addLog s "Source and output folders cannot be the same." (some "error"), [])
  else
    let s1 := setScanning s true
    let s2 := clearLog s1
    let s3 := { s2 with summaryHidden := true }
    let s4 := setProgress s3 0 0
    (s4, [ApiCall.startScan source output sliderVal])

/-- The cancel-button click handler (renderer.js lines 74 to 77). -/
def btnCancelClick (s : RendererState) : RendererState × List ApiCall :=
  ({ s with statusText := "Cancelling..." }, [ApiCall.cancelScan])

/-- Terminal-class events in the sense of the specification: the events
whose processing ends a session. -/
def isTerminalEvent : BEvent → Bool
  | BEvent.complete _ _ => true
  | BEvent.cancelled => true
  | BEvent.processExit _ => true
  | _ => false

/-- Main process state at application start: no worker, window live. -/
def mInit : MainState :=
  { pythonProcess := none, windowAlive := true, nextPid := 0, graceTimers := 0 }

/-- Main process state with a live worker after the window was closed and
destroyed. -/
def mDeadWin : MainState :=
  { pythonProcess := some { pid := 0, stdinWritable := true }, windowAlive := false,
    nextPid := 1, graceTimers := 0 }

/-- Main process state holding a worker handle whose stdin stream is no
longer writable (the process exited or the pipe broke, before the close
event was processed). -/
def mBroken : MainState :=
  { pythonProcess := some { pid := 0, stdinWritable := false }, windowAlive := true,
    nextPid := 1, graceTimers := 0 }

/-- A live worker handle used by the shutdown scenarios. -/
def p7 : WorkerProc := { pid := 7, stdinWritable := true }

/-- Main process state with the live worker p7. -/
def s4w : MainState :=
  { pythonProcess := some p7, windowAlive := true, nextPid := 8, graceTimers := 0 }

/-- Representative renderer state before any scan. -/
def r0 : RendererState :=
  { isScanning := false, btnStartDisabled := false, btnCancelDisabled := true,
    inputsDisabled := false, statusText := "Ready",
    progressBarWidthPct := none, progressCountText := "",
    progressActive := false, progressScanning := false,
    summaryHidden := true, summaryHasErrors := false, summaryText := "",
    logEntries := [], logStarted := false }

/-- Renderer state during a running session. -/
def runningR : RendererState := setScanning r0 true

/-- A stdout line that is not JSON, as a worker writing diagnostics to
stdout would produce. -/
def badLine : String := "Traceback (most recent call last):"

/-- A well-formed protocol line. -/
def goodLine : String := "\x7b\"event\":\"cancelled\"\x7d"

/-- The decoded form of goodLine. -/
def cancelledMsg : JValue := JValue.obj [("event", JValue.str "cancelled")]

/-- C1 state after the first accepted start-scan call. -/
def c1AfterFirst : MainState := (startScanHandler mInit "/a" "/b" 15).1

/-- C1 counterexample.  The claim says a second startScan call made while
a session is active is rejected synchronously (returns not-accepted) and
its scan Command never reaches the worker.  In the code the start-scan
IPC handler has no state check: this theorem exhibits a first accepted
call followed by a second call that is also accepted (returns true) and
whose scan Command is written to the worker stdin. -/
theorem C1_counterexample :
    (startScanHandler mInit "/a" "/b" 15).2.2 = true ∧
    (startScanHandler c1AfterFirst "/a" "/b" 15).2.2 = true ∧
    (startScanHandler c1AfterFirst "/a" "/b" 15).2.1
      = [MainEff.wrote 0 (scanJson "/a" "/b" 15)] :=
  ⟨rfl, rfl, rfl⟩

/-- C1 (amended): the start-scan IPC handler accepts every call (always
returns true, sending the scan Command regardless of state); double-start
prevention lives only in the UI layer: a click that issues a startScan
call leaves the start button disabled, and every backend event that is
not terminal-class keeps it disabled, so the UI issues no second
startScan before a terminal event (the browser does not deliver clicks
on a disabled button). -/
theorem C1_no_reject_ui_guard :
    (∀ s src out th, (startScanHandler s src out th).2.2 = true) ∧
    (∀ s srcRaw outRaw th,
        (btnStartClick s srcRaw outRaw th).2 ≠ [] →
        (btnStartClick s srcRaw outRaw th).1.btnStartDisabled = true) ∧
    (∀ s e, s.btnStartDisabled = true → isTerminalEvent e = false →
        (handleBackendEvent s e).btnStartDisabled = true) := by
  refine ⟨fun s src out th => rfl, ?_, ?_⟩
  · intro s srcRaw outRaw th h
    by_cases h1 : strTrim srcRaw = ""
    · simp [btnStartClick, h1] at h
    · by_cases h2 : strTrim outRaw = ""
      · simp [btnStartClick, h1, h2] at h
      · by_cases h3 : strTrim srcRaw = strTrim outRaw
        · simp [btnStartClick, h1, h2, h3] at h
        · simp [btnStartClick, h1, h2, h3, setProgress, clearLog, setScanning]
  · intro s e h1 h2
    cases e <;> first | exact h1 | simp [isTerminalEvent] at h2

/-- C1 witness: the accepted first click disables the start button, and a
progress event keeps it disabled. -/
theorem C1_witness :
    (startScanHandler mInit "/a" "/b" 15).2.2 = true ∧
    (btnStartClick r0 "/a" "/b" 15).1.btnStartDisabled = true ∧
    (handleBackendEvent runningR (BEvent.progress 1 10)).btnStartDisabled = true :=
  ⟨C1_no_reject_ui_guard.1 mInit "/a" "/b" 15,
   C1_no_reject_ui_guard.2.1 r0 "/a" "/b" 15 (by decide),
   C1_no_reject_ui_guard.2.2 runningR (BEvent.progress 1 10) rfl rfl⟩

/-- C2 counterexample.  The claim says every event after the first
terminal-class event of a session is ignored rather than re-processed.
After a first complete event (which does clear the scanning flag) a
second complete event is still processed: it overwrites the summary
banner text. -/
theorem C2_counterexample :
    (handleBackendEvent runningR (BEvent.complete "first summary" 0)).isScanning = false ∧
    (handleBackendEvent
        (handleBackendEvent runningR (BEvent.complete "first summary" 0))
        (BEvent.complete "second summary" 0)).summaryText = "second summary" ∧
    (handleBackendEvent runningR (BEvent.complete "first summary" 0)).summaryText
      = "first summary" :=
  ⟨rfl, rfl, rfl⟩

/-- C2 (amended): the first terminal-class event moves the session to
Idle (isScanning false); afterwards process-exit events are ignored
(their handler is guarded by isScanning), but complete and cancelled
events are not guarded: a later complete is re-processed and overwrites
the summary, and a later cancelled re-runs setScanning. -/
theorem C2_terminal_behaviour (s : RendererState) (e : BEvent) :
    (isTerminalEvent e = true → (handleBackendEvent s e).isScanning = false) ∧
    (s.isScanning = false → ∀ c : Int, handleBackendEvent s (BEvent.processExit c) = s) ∧
    (∀ sum errs, (handleBackendEvent s (BEvent.complete sum errs)).summaryText = sum) ∧
    (handleBackendEvent s BEvent.cancelled).isScanning = false := by
  refine ⟨?_, ?_, fun sum errs => rfl, rfl⟩
  · intro h
    cases e with
    | status m => simp [isTerminalEvent] at h
    | log m => simp [isTerminalEvent] at h
    | progress c t => simp [isTerminalEvent] at h
    | complete sum errs => rfl
    | cancelled => rfl
    | error m => simp [isTerminalEvent] at h
    | processExit c =>
        by_cases hs : s.isScanning <;>
          simp [handleBackendEvent, hs, setScanning, addLog]
    | other t => simp [isTerminalEvent] at h
  · intro h c
    simp [handleBackendEvent, h]

/-- C2 witness: a concrete complete event ends the running session, and a
process-exit event arriving at an idle session is a no-op. -/
theorem C2_witness :
    isTerminalEvent (BEvent.complete "done" 0) = true ∧
    (handleBackendEvent runningR (BEvent.complete "done" 0)).isScanning = false ∧
    r0.isScanning = false ∧
    handleBackendEvent r0 (BEvent.processExit 1) = r0 :=
  ⟨rfl, (C2_terminal_behaviour runningR (BEvent.complete "done" 0)).1 rfl, rfl,
   (C2_terminal_behaviour r0 (BEvent.processExit 1)).2.1 rfl 1⟩

/-- C3 (confirmed): a stdout line that does not parse as JSON causes no
fault (the handler is a total function), yields no forwarded event,
leaves the state unchanged, and does not abort the stream: processing a
bad line followed by further lines is the same as processing the further
lines alone, and a well-formed line is still decoded and forwarded to a
live window. -/
theorem C3_framing (s : MainState) (line : String) (h : jsonParse line = none) :
    onStdoutLine s line = (s, []) ∧
    (∀ rest, processStdoutLines s (line :: rest) = processStdoutLines s rest) ∧
    (∀ good v, jsonParse good = some v → s.windowAlive = true →
        onStdoutLine s good = (s, [MainEff.uiEvent v])) := by
  refine ⟨by simp [onStdoutLine, h], ?_, ?_⟩
  · intro rest
    simp [processStdoutLines, onStdoutLine, h]
  · intro good v hg hw
    simp [onStdoutLine, hg, hw]

/-- C3 witness: a concrete diagnostic line is dropped and a concrete
protocol line after it is still decoded and forwarded. -/
theorem C3_witness :
    jsonParse badLine = none ∧
    onStdoutLine mInit badLine = (mInit, []) ∧
    processStdoutLines mInit [badLine, goodLine] = processStdoutLines mInit [goodLine] ∧
    jsonParse goodLine = some cancelledMsg ∧
    onStdoutLine mInit goodLine = (mInit, [MainEff.uiEvent cancelledMsg]) := by
  refine ⟨rfl, ?_, ?_, rfl, ?_⟩
  · exact (C3_framing mInit badLine rfl).1
  · exact (C3_framing mInit badLine rfl).2.1 [goodLine]
  · exact (C3_framing mInit badLine rfl).2.2 goodLine cancelledMsg rfl rfl

/-- C4 counterexample.  The claim says that when the worker process
self-terminates before the grace deadline, no forced kill occurs.  The
grace-timer callback checks the global worker reference, not the process
it was armed for: here worker 0 receives quit, self-terminates (its close
event is processed), then a cancel command respawns a fresh worker 1
before the timer fires, and the stale timer force-kills worker 1. -/
theorem C4_counterexample :
    (onProcessClose (killPython mDeadWin).1 0).1.pythonProcess = none ∧
    (cancelScanHandler (onProcessClose (killPython mDeadWin).1 0).1).2.1
      = [MainEff.spawned 1, MainEff.wrote 1 cancelJson] ∧
    (graceTimerFire (cancelScanHandler (onProcessClose (killPython mDeadWin).1 0).1).1).2
      = [MainEff.killed 1] :=
  ⟨rfl, rfl, rfl⟩

/-- C4 (amended): shutdown on a live worker writes the quit command
best-effort (only when stdin is writable, failures ignored) and arms the
1000 ms grace timer; when the timer fires with a worker reference still
live, that worker is force-killed and the reference cleared; when the
worker self-terminated first and nothing was respawned, the timer fires
on an empty reference and kills nothing (a worker respawned inside the
grace window is however killed by the stale timer, see the
counterexample); shutdown with no live worker is a no-op. -/
theorem C4_shutdown (s : MainState) (p : WorkerProc) (h : s.pythonProcess = some p) :
    killPython s = ({ s with graceTimers := s.graceTimers + 1 },
        (if p.stdinWritable then [MainEff.wrote p.pid quitJson] else [])
          ++ [MainEff.timerSet]) ∧
    graceTimerFire (killPython s).1
      = ({ s with pythonProcess := none }, [MainEff.killed p.pid]) ∧
    (∀ code, (graceTimerFire (onProcessClose (killPython s).1 code).1).2 = []) ∧
    (∀ s2 : MainState, s2.pythonProcess = none → killPython s2 = (s2, [])) := by
  refine ⟨by simp [killPython, h], ?_, ?_, ?_⟩
  · simp [graceTimerFire, killPython, h]
  · intro code
    simp [graceTimerFire, onProcessClose, killPython, h]
  · intro s2 h2
    simp [killPython, h2]

/-- C4 witness: the shutdown path evaluated on the concrete live state
s4w with worker p7. -/
theorem C4_witness :
    s4w.pythonProcess = some p7 ∧
    killPython s4w
      = ({ s4w with graceTimers := 1 }, [MainEff.wrote 7 quitJson, MainEff.timerSet]) ∧
    graceTimerFire (killPython s4w).1
      = ({ s4w with pythonProcess := none }, [MainEff.killed 7]) ∧
    (graceTimerFire (onProcessClose (killPython s4w).1 0).1).2 = [] ∧
    killPython { s4w with pythonProcess := none }
      = ({ s4w with pythonProcess := none }, []) :=
  ⟨rfl, (C4_shutdown s4w p7 rfl).1, (C4_shutdown s4w p7 rfl).2.1,
   (C4_shutdown s4w p7 rfl).2.2.1 0,
   (C4_shutdown s4w p7 rfl).2.2.2 { s4w with pythonProcess := none } rfl⟩

/-- C5 counterexample.  The claim says that whenever the worker process
terminates, exactly one synthetic process-exit event is emitted to
observers.  When the main window is destroyed at that moment (here: the
worker terminates after the window closed), the close handler emits
nothing at all; the reference is still cleared. -/
theorem C5_counterexample :
    (onProcessClose mDeadWin 1).2 = [] ∧
    (onProcessClose mDeadWin 1).1.pythonProcess = none :=
  ⟨rfl, rfl⟩

/-- C5 (amended): whenever the worker process terminates, the live-worker
reference is cleared unconditionally, so the next command spawns a fresh
worker instead of reusing the dead handle; exactly one synthetic
process-exit event is emitted when the main window exists and is not
destroyed at that moment, and none otherwise. -/
theorem C5_exit_cleanup (s : MainState) (code : Int) :
    (onProcessClose s code).1.pythonProcess = none ∧
    (onProcessClose s code).2
      = (if s.windowAlive then [MainEff.uiEvent (processExitJson code)] else []) ∧
    (∀ cmd, sendToPython (onProcessClose s code).1 cmd
      = ({ s with pythonProcess := some { pid := s.nextPid, stdinWritable := true },
                  nextPid := s.nextPid + 1 },
         [MainEff.spawned s.nextPid, MainEff.wrote s.nextPid cmd])) := by
  refine ⟨rfl, rfl, ?_⟩
  intro cmd
  simp [sendToPython, spawnPython, onProcessClose]

/-- C6 counterexample.  The claim says the derived percentage stays
clamped in the unit interval.  setProgress performs no clamping: the
event progress with current 3 and total 2 drives the bar width to 150
percent, a fraction strictly above 1. -/
theorem C6_counterexample :
    (setProgress r0 3 2).progressBarWidthPct = some 150 ∧ (1 : ℚ) < 150 / 100 := by
  constructor
  · norm_num [setProgress]
  · norm_num

/-- C6 (amended): for total positive the derived percentage equals
current divided by total (times one hundred) with no clamping; it lies
within the unit interval exactly when the worker respects the protocol
bound that current stays between 0 and total.  For total not positive no
division happens: the bar width is set to 0 percent and the counter text
to the empty string (the part_000 renderer variant instead always shows
the numeric counter), with no distinct unknown-progress state. -/
theorem C6_progress (s : RendererState) (cur total : Int) :
    (0 < total →
        (setProgress s cur total).progressBarWidthPct
          = some ((cur : ℚ) / (total : ℚ) * 100) ∧
        (0 ≤ cur → cur ≤ total →
          0 ≤ (cur : ℚ) / (total : ℚ) * 100 ∧ (cur : ℚ) / (total : ℚ) * 100 ≤ 100)) ∧
    (total ≤ 0 →
        (setProgress s cur total).progressBarWidthPct = some 0 ∧
        (setProgress s cur total).progressCountText = "") := by
  constructor
  · intro h
    have ht : (0 : ℚ) < (total : ℚ) := by exact_mod_cast h
    refine ⟨by simp [setProgress, h], ?_⟩
    intro hc hct
    have hc2 : (0 : ℚ) ≤ (cur : ℚ) := by exact_mod_cast hc
    have hct2 : (cur : ℚ) ≤ (total : ℚ) := by exact_mod_cast hct
    constructor
    · exact mul_nonneg (div_nonneg hc2 ht.le) (by norm_num)
    · have h1 : (cur : ℚ) / (total : ℚ) ≤ 1 := (div_le_one ht).mpr hct2
      calc (cur : ℚ) / (total : ℚ) * 100 ≤ 1 * 100 :=
              mul_le_mul_of_nonneg_right h1 (by norm_num)
        _ = 100 := by norm_num
  · intro h
    have hn : ¬ (total > 0) := not_lt.mpr h
    exact ⟨by simp [setProgress, hn], by simp [setProgress, hn]⟩

/-- C6 witness: the Scenario B progress event 50 of 200 lands at a
quarter, inside the bounds, and a 0 of 0 event yields a 0 percent bar
with an empty counter. -/
theorem C6_witness :
    (0 : Int) < 200 ∧
    (setProgress r0 50 200).progressBarWidthPct = some ((50 : ℚ) / (200 : ℚ) * 100) ∧
    0 ≤ (50 : ℚ) / (200 : ℚ) * 100 ∧ (50 : ℚ) / (200 : ℚ) * 100 ≤ 100 ∧
    (setProgress r0 0 0).progressBarWidthPct = some 0 ∧
    (setProgress r0 0 0).progressCountText = "" := by
  refine ⟨by norm_num, ((C6_progress r0 50 200).1 (by norm_num)).1, ?_, ?_, ?_, ?_⟩
  · exact (((C6_progress r0 50 200).1 (by norm_num)).2 (by norm_num) (by norm_num)).1
  · exact (((C6_progress r0 50 200).1 (by norm_num)).2 (by norm_num) (by norm_num)).2
  · exact ((C6_progress r0 0 0).2 (by norm_num)).1
  · exact ((C6_progress r0 0 0).2 (by norm_num)).2

/-- C7 counterexample.  The claim says a write to a non-writable worker
stream fails with a reported failed-operation result.  On the state
mBroken (live handle, stdin not writable) the cancel handler writes
nothing, reports nothing, and still returns the success value true. -/
theorem C7_counterexample :
    cancelScanHandler mBroken = (mBroken, [], true) :=
  rfl

/-- C7 (amended): when the worker stdin stream is not writable, send
silently skips the write: no crash and no fault, but also no reported
failure result; the IPC handlers still return true exactly as on the
success path. -/
theorem C7_silent_skip (s : MainState) (p : WorkerProc) (h : s.pythonProcess = some p)
    (hw : p.stdinWritable = false) :
    (∀ cmd, sendToPython s cmd = (s, [])) ∧
    cancelScanHandler s = (s, [], true) ∧
    (∀ src out th, startScanHandler s src out th = (s, [], true)) := by
  refine ⟨?_, ?_, ?_⟩
  · intro cmd
    simp [sendToPython, h, hw]
  · simp [cancelScanHandler, sendToPython, h, hw]
  · intro src out th
    simp [startScanHandler, spawnPython, sendToPython, h, hw]

/-- C7 witness: the silent skip evaluated on the concrete broken state. -/
theorem C7_witness :
    mBroken.pythonProcess = some { pid := 0, stdinWritable := false } ∧
    sendToPython mBroken cancelJson = (mBroken, []) ∧
    startScanHandler mBroken "/a" "/b" 15 = (mBroken, [], true) :=
  ⟨rfl, (C7_silent_skip mBroken _ rfl rfl).1 cancelJson,
   (C7_silent_skip mBroken _ rfl rfl).2.2 "/a" "/b" 15⟩

/-- C8 (confirmed): a start request whose trimmed source equals its
trimmed output issues no api call at all, hence no Command can reach the
worker; the check is made before anything else and consults no worker
state (an empty equal pair is stopped even earlier by the empty-source
check, likewise with no api call). -/
theorem C8_same_path_rejected (s : RendererState) (sourceRaw outputRaw : String)
    (th : Int) (h : strTrim sourceRaw = strTrim outputRaw) :
    (btnStartClick s sourceRaw outputRaw th).2 = [] := by
  by_cases h1 : strTrim sourceRaw = ""
  · simp [btnStartClick, h1]
  · have h2 : ¬ strTrim outputRaw = "" := fun hh => h1 (h.trans hh)
    simp [btnStartClick, h1, h2, h]

/-- C8 witness: the Scenario C request with equal paths issues no call. -/
theorem C8_witness :
    strTrim "/x" = strTrim "/x" ∧ (btnStartClick r0 "/x" "/x" 15).2 = [] :=
  ⟨rfl, C8_same_path_rejected r0 "/x" "/x" 15 rfl⟩

/-- C9 (confirmed): a cancel-scan call arriving while no worker is live
is not a no-op: send first ensures the worker is started, so a fresh
worker is spawned and the cancel Command is written to it, and the
handler returns true. -/
theorem C9_cancel_spawns (s : MainState) (h : s.pythonProcess = none) :
    cancelScanHandler s =
      ({ s with pythonProcess := some { pid := s.nextPid, stdinWritable := true },
                nextPid := s.nextPid + 1 },
       [MainEff.spawned s.nextPid, MainEff.wrote s.nextPid cancelJson], true) := by
  simp [cancelScanHandler, sendToPython, spawnPython, h]

/-- C9 witness: cancel on the initial state spawns worker 0 and writes
the cancel command to it. -/
theorem C9_witness :
    mInit.pythonProcess = none ∧
    cancelScanHandler mInit =
      ({ mInit with pythonProcess := some { pid := 0, stdinWritable := true },
                    nextPid := 1 },
       [MainEff.spawned 0, MainEff.wrote 0 cancelJson], true) :=
  ⟨rfl, C9_cancel_spawns mInit rfl⟩

/-- C10 (confirmed): every event destined for observers — decoded stdout
events, stderr-wrapped error events and the synthetic process-exit event
— is forwarded only when the main window exists and is not destroyed at
delivery time; with a dead window each handler emits nothing, changes
nothing beyond clearing the process reference on close, and keeps no
buffer for later replay (the handlers hold no state that could replay). -/
theorem C10_window_gate (s : MainState) :
    (∀ line ev, MainEff.uiEvent ev ∈ (onStdoutLine s line).2 → s.windowAlive = true) ∧
    (∀ d ev, MainEff.uiEvent ev ∈ (onStderrData s d).2 → s.windowAlive = true) ∧
    (∀ code ev, MainEff.uiEvent ev ∈ (onProcessClose s code).2 → s.windowAlive = true) ∧
    (s.windowAlive = false →
      (∀ line, onStdoutLine s line = (s, [])) ∧
      (∀ d, onStderrData s d = (s, [])) ∧
      (∀ code, onProcessClose s code = ({ s with pythonProcess := none }, []))) := by
  cases hw : s.windowAlive
  · refine ⟨?_, ?_, ?_, ?_⟩
    · intro line ev hmem
      rcases hj : jsonParse line with _ | v <;> simp [onStdoutLine, hj, hw] at hmem
    · intro d ev hmem
      simp [onStderrData, hw] at hmem
    · intro code ev hmem
      simp [onProcessClose, hw] at hmem
    · intro _
      refine ⟨?_, ?_, ?_⟩
      · intro line
        rcases hj : jsonParse line with _ | v <;> simp [onStdoutLine, hj, hw]
      · intro d
        simp [onStderrData, hw]
      · intro code
        simp [onProcessClose, hw]
  · refine ⟨fun _ _ _ => rfl, fun _ _ _ => rfl, fun _ _ _ => rfl, ?_⟩
    intro hfalse
    exact Bool.noConfusion hfalse

/-- C10 witness: with the window destroyed, a decodable stdout line, a
stderr chunk and a process exit are all silently dropped. -/
theorem C10_witness :
    mDeadWin.windowAlive = false ∧
    onStdoutLine mDeadWin goodLine = (mDeadWin, []) ∧
    onStderrData mDeadWin "boom" = (mDeadWin, []) ∧
    onProcessClose mDeadWin 1 = ({ mDeadWin with pythonProcess := none }, []) :=
  ⟨rfl, ((C10_window_gate mDeadWin).2.2.2 rfl).1 goodLine,
   ((C10_window_gate mDeadWin).2.2.2 rfl).2.1 "boom",
   ((C10_window_gate mDeadWin).2.2.2 rfl).2.2 1⟩
